import Mathlib

/-!
Shallow embedding of the dual-backend text-generation relay in
`src/App/main.py` (function `generate_text` and its module-level
configuration), together with theorems checking the specification's
claims about it.

Python values flowing through the relay (parsed JSON bodies, the values
returned by `generate_text`) are modelled by the inductive type `Json`.
The two network backends (the local Ollama daemon reached through
`requests.post` and the cloud service reached through the ollama
client's `chat` method) are modelled as oracle functions in an
environment `Env`; an oracle returning `Except.error d` models the call
raising a Python exception whose `str` rendering is `d`.  The only
module-level mutable binding read by `generate_text` is
`ollama_cloud_client`; it lives in `GlobalState`, which the embedding
threads through explicitly so that statements about state (non-)mutation
can be made.  The network requests the relay issues are recorded in an
`Effect` trace.
-/

namespace Relay

/-- Python values produced by parsing JSON bodies (and the dict literals
built by the source).  JSON numbers are modelled as integers; no claim
involves fractional numbers. -/
inductive Json where
  | null : Json
  | bool : Bool → Json
  | num : Int → Json
  | str : String → Json
  | arr : List Json → Json
  | obj : List (String × Json) → Json
deriving BEq

/-- Substring occurrence test on character lists: does `pat` occur as a
contiguous sublist of `s`?  This is the semantics of Python's
`pat in s` for strings. -/
def containsSubList (pat : List Char) : List Char → Bool
  | [] => pat.isEmpty
  | c :: rest => pat.isPrefixOf (c :: rest) || containsSubList pat rest

/-- Python's `pat in s` substring test on strings. -/
def pyContains (s pat : String) : Bool :=
  containsSubList pat.toList s.toList

/-- One left-to-right, non-overlapping pass replacing every occurrence of
`pat` by `repl`, on character lists: the semantics of Python's
`s.replace(pat, repl)` for a non-empty `pat` (the source only ever calls
it with the non-empty pattern `"-cloud"`). -/
def replaceList (pat repl : List Char) : List Char → List Char
  | [] => []
  | c :: rest =>
    if !pat.isEmpty && pat.isPrefixOf (c :: rest) then
      repl ++ replaceList pat repl (rest.drop (pat.length - 1))
    else
      c :: replaceList pat repl rest
termination_by s => s.length
decreasing_by
  · simp only [List.length_drop, List.length_cons]
    omega
  · simp only [List.length_cons]
    omega

/-- Python's `s.replace(pat, repl)` on strings (non-empty `pat`). -/
def pyReplace (s pat repl : String) : String :=
  String.mk (replaceList pat.toList repl.toList s.toList)

mutual

/-- Python `repr` of a `Json` value (the rendering used for elements
inside containers): dicts print as `\x7b'k': v\x7d`, lists as `[a, b]`,
strings quoted, `None`/`True`/`False` for null and booleans. -/
def pyRepr : Json → String
  | Json.null => "None"
  | Json.bool true => "True"
  | Json.bool false => "False"
  | Json.num n => toString n
  | Json.str s => "'" ++ s ++ "'"
  | Json.arr xs => "[" ++ pyReprArr xs ++ "]"
  | Json.obj fs => "\x7b" ++ pyReprObj fs ++ "\x7d"

/-- Comma-separated `repr` of list elements. -/
def pyReprArr : List Json → String
  | [] => ""
  | [x] => pyRepr x
  | x :: xs => pyRepr x ++ ", " ++ pyReprArr xs

/-- Comma-separated `repr` of dict entries. -/
def pyReprObj : List (String × Json) → String
  | [] => ""
  | [(k, v)] => "'" ++ k ++ "': " ++ pyRepr v
  | (k, v) :: fs => "'" ++ k ++ "': " ++ pyRepr v ++ ", " ++ pyReprObj fs

end

/-- Python `str` of a `Json` value: a top-level string renders without
quotes, everything else as its `repr`.  This is the semantics of the
source's `str(res_json)` fallback. -/
def pyStr : Json → String
  | Json.str s => s
  | j => pyRepr j

/-- Python's membership test `k in j` on a parsed JSON value: key lookup
for dicts, element equality for lists, substring test for strings, and a
`TypeError` (modelled as `Except.error`) for non-iterable values. -/
def pyIn (k : String) : Json → Except String Bool
  | Json.obj fs => Except.ok (fs.any (fun p => p.1 == k))
  | Json.arr xs => Except.ok (xs.any (fun x => x == Json.str k))
  | Json.str s => Except.ok (pyContains s k)
  | _ => Except.error "argument of type is not iterable"

/-- Python's subscript `j[k]` with a string key: value lookup for dicts
(`KeyError` when absent), `TypeError` for lists, strings and other
values. -/
def jIndex (j : Json) (k : String) : Except String Json :=
  match j with
  | Json.obj fs =>
    match List.lookup k fs with
    | some v => Except.ok v
    | none => Except.error ("'" ++ k ++ "'")
  | Json.arr _ => Except.error "list indices must be integers or slices, not str"
  | Json.str _ => Except.error "string indices must be integers"
  | _ => Except.error "object is not subscriptable"

/-- The fixed local endpoint (source line 12). -/
def LOCAL_OLLAMA_ENDPOINT : String := "http://localhost:11434/api/generate"

/-- Result of `requests.post` when no exception is raised: an HTTP
status code together with the outcome of `.json()` on the body
(`Except.error` models a body that fails to parse as JSON). -/
structure HttpResponse where
  status : Nat
  jsonBody : Except String Json

/-- The external world: the cloud backend's `chat` method and the local
daemon reached through `requests.post`.  `Except.error d` models the
call raising an exception with description `d`. -/
structure Env where
  cloudChat : String → List Json → Except String Json
  post : String → Json → Except String HttpResponse

/-- The module-level state read by `generate_text`: the optional cloud
client handle established once at startup (`None` when `OLLAMA_API_KEY`
was absent). -/
structure GlobalState where
  ollama_cloud_client : Option Unit
deriving Repr, DecidableEq

/-- Network requests issued by one call to the relay. -/
inductive Effect where
  | cloudChat (model : String) (messages : List Json) : Effect
  | post (url : String) (body : Json) : Effect
deriving BEq

/-- The single-turn message list `[{'role': 'user', 'content': prompt}]`
built on the cloud path (source line 42). -/
def cloudMessages (prompt : String) : List Json :=
  [Json.obj [("role", Json.str "user"), ("content", Json.str prompt)]]

/-- The request body `{"model": .., "prompt": .., "stream": false}`
built on the local path (source lines 51-55). -/
def localData (prompt model_name : String) : Json :=
  Json.obj [("model", Json.str model_name),
            ("prompt", Json.str prompt),
            ("stream", Json.bool false)]

/-- `response['message']['content']` on the cloud response
(source line 48). -/
def cloudExtract (resp : Json) : Except String Json :=
  match jIndex resp "message" with
  | Except.error e => Except.error e
  | Except.ok msg => jIndex msg "content"

/-- `response.raise_for_status()` raises exactly for status codes in
[400, 600) (client and server errors); other codes pass through. -/
def errStatus (status : Nat) : Bool :=
  400 ≤ status && status < 600

/-- Description carried by the `HTTPError` that `raise_for_status`
raises. -/
def httpErrorDesc (status : Nat) (url : String) : String :=
  toString status ++ " Error for url: " ++ url

/-- The schema normalization of the local response (source lines 61-67):
`response` field first, then `text` field, else `str` of the whole
body.  `Except.error` models an exception escaping from the membership
test or the subscript. -/
def normalizeLocal (res_json : Json) : Except String Json :=
  match pyIn "response" res_json with
  | Except.error e => Except.error e
  | Except.ok true => jIndex res_json "response"
  | Except.ok false =>
    match pyIn "text" res_json with
    | Except.error e => Except.error e
    | Except.ok true => jIndex res_json "text"
    | Except.ok false => Except.ok (Json.str (pyStr res_json))

/-- The string built by the source's `except` clause. -/
def errorResult (e : String) : Json :=
  Json.str ("An error occurred: " ++ e)

/-- Shallow embedding of `generate_text` (source lines 33-70).  The
prompt is an `Option String` so that an absent (`None`) prompt is
representable; Python's `if not prompt` is true exactly for `None` and
`""`.  Returns the Python return value, the trace of network requests
issued, and the module state after the call. -/
def generate_text (env : Env) (st : GlobalState) (prompt : Option String)
    (model_name : String) : Json × List Effect × GlobalState :=
  match prompt with
  | none => (Json.str "Please enter a prompt.", [], st)
  | some p =>
    if p = "" then
      (Json.str "Please enter a prompt.", [], st)
    else if pyContains model_name "cloud" then
      match st.ollama_cloud_client with
      | none => (Json.str "Error: OLLAMA_API_KEY not set in .env file.", [], st)
      | some _ =>
        match env.cloudChat (pyReplace model_name "-cloud" "") (cloudMessages p) with
        | Except.error e =>
          (errorResult e, [Effect.cloudChat (pyReplace model_name "-cloud" "") (cloudMessages p)], st)
        | Except.ok resp =>
          match cloudExtract resp with
          | Except.error e =>
            (errorResult e, [Effect.cloudChat (pyReplace model_name "-cloud" "") (cloudMessages p)], st)
          | Except.ok content =>
            (content, [Effect.cloudChat (pyReplace model_name "-cloud" "") (cloudMessages p)], st)
    else
      match env.post LOCAL_OLLAMA_ENDPOINT (localData p model_name) with
      | Except.error e =>
        (errorResult e, [Effect.post LOCAL_OLLAMA_ENDPOINT (localData p model_name)], st)
      | Except.ok r =>
        if errStatus r.status then
          (errorResult (httpErrorDesc r.status LOCAL_OLLAMA_ENDPOINT),
           [Effect.post LOCAL_OLLAMA_ENDPOINT (localData p model_name)], st)
        else
          match r.jsonBody with
          | Except.error e =>
            (errorResult e, [Effect.post LOCAL_OLLAMA_ENDPOINT (localData p model_name)], st)
          | Except.ok res_json =>
            match normalizeLocal res_json with
            | Except.error e =>
              (errorResult e, [Effect.post LOCAL_OLLAMA_ENDPOINT (localData p model_name)], st)
            | Except.ok out =>
              (out, [Effect.post LOCAL_OLLAMA_ENDPOINT (localData p model_name)], st)

/-- The model-name stripping as the specification words it: remove only a
trailing `-cloud` suffix, leaving every other occurrence of the marker in
place.  This definition follows the spec's words (spec §9, "strip only a
trailing `-cloud` suffix, not remove all occurrences") and exists solely
to be compared against the source's `replace`-based stripping. -/
def specStripTrailingCloud (s : String) : String :=
  if List.isSuffixOf "-cloud".toList s.toList then
    String.mk (s.toList.take (s.toList.length - 6))
  else s

/-- A benign concrete environment for witnesses: the cloud backend
answers with a well-formed chat response, the local daemon with a 200
response carrying a `response` field. -/
def envOk : Env where
  cloudChat := fun _ _ =>
    Except.ok (Json.obj [("message", Json.obj [("content", Json.str "cloud reply")])])
  post := fun _ _ =>
    Except.ok { status := 200,
                jsonBody := Except.ok (Json.obj [("response", Json.str "hello")]) }

/-- A concrete environment whose local daemon answers with HTTP 300 and
a JSON body carrying a `response` field. -/
def env300 : Env where
  cloudChat := fun _ _ => Except.error "unreachable"
  post := fun _ _ =>
    Except.ok { status := 300,
                jsonBody := Except.ok (Json.obj [("response", Json.str "hi")]) }

/-- A concrete environment whose local daemon answers with HTTP 500. -/
def env500 : Env where
  cloudChat := fun _ _ => Except.error "unreachable"
  post := fun _ _ =>
    Except.ok { status := 500, jsonBody := Except.error "no body" }

/-- A list is a prefix of itself followed by anything. -/
theorem isPrefixOf_append_chars (l t : List Char) : l.isPrefixOf (l ++ t) = true := by
  induction l with
  | nil => simp [List.isPrefixOf]
  | cons c cs ih => simp [List.isPrefixOf, ih]

/-- Characters of an appended string. -/
theorem toList_append_chars (a b : String) : (a ++ b).toList = a.toList ++ b.toList := by
  simp [String.toList]

/-- If `pat` does not occur in `s`, the replacement pass leaves `s`
unchanged. -/
theorem replaceList_eq_self_of_not_contains (pat repl : List Char) (s : List Char)
    (h : containsSubList pat s = false) : replaceList pat repl s = s := by
  induction s with
  | nil => simp [replaceList]
  | cons c rest ih =>
    rw [containsSubList, Bool.or_eq_false_iff] at h
    rw [replaceList, h.1]
    simp [ih h.2]

/-- If the marker string does not occur in `s`, Python's
`s.replace(pat, repl)` returns `s` itself. -/
theorem pyReplace_eq_self_of_not_contains (s pat repl : String)
    (h : pyContains s pat = false) : pyReplace s pat repl = s := by
  unfold pyReplace
  rw [replaceList_eq_self_of_not_contains _ _ _ h]
  obtain ⟨d⟩ := s
  rfl

/-- Key-membership via `any` agrees with `List.lookup`. -/
theorem any_key_eq_lookup_isSome (k : String) (fs : List (String × Json)) :
    (fs.any (fun q => q.1 == k)) = (List.lookup k fs).isSome := by
  induction fs with
  | nil => rfl
  | cons hd tl ih =>
    obtain ⟨k', v⟩ := hd
    by_cases hk : k' = k
    · subst hk
      simp [List.lookup]
    · have h1 : (k' == k) = false := beq_eq_false_iff_ne.mpr hk
      have h2 : (k == k') = false := beq_eq_false_iff_ne.mpr (Ne.symm hk)
      simp [List.lookup, h1, h2, ih]

/-- `normalizeLocal` on a JSON object never raises and applies the
three-way fallback in order. -/
theorem normalizeLocal_obj (fs : List (String × Json)) :
    normalizeLocal (Json.obj fs) =
      Except.ok
        (match List.lookup "response" fs with
         | some v => v
         | none =>
           match List.lookup "text" fs with
           | some v => v
           | none => Json.str (pyStr (Json.obj fs))) := by
  simp only [normalizeLocal, pyIn]
  rw [any_key_eq_lookup_isSome, any_key_eq_lookup_isSome]
  cases hr : List.lookup "response" fs with
  | some v => simp [jIndex, hr]
  | none =>
    cases ht : List.lookup "text" fs with
    | some v => simp [jIndex, hr, ht]
    | none => simp [hr, ht]

/-- C1: for every prompt and model identifier, `generate_text` always
returns a value: it is either one of the two fixed advisory strings, or
the string `"An error occurred: "` followed by the description of the
fault that arose during dispatch (network failure, HTTP error status,
malformed JSON, missing response fields), or a success payload extracted
from a backend response.  Every fault is absorbed: no exceptional
outcome escapes. -/
theorem generate_text_never_raises (env : Env) (st : GlobalState)
    (prompt : Option String) (model_name : String) :
    (generate_text env st prompt model_name).1 = Json.str "Please enter a prompt."
  ∨ (generate_text env st prompt model_name).1 =
      Json.str "Error: OLLAMA_API_KEY not set in .env file."
  ∨ (∃ d, (generate_text env st prompt model_name).1 =
      Json.str ("An error occurred: " ++ d))
  ∨ (∃ p resp content, prompt = some p ∧
      env.cloudChat (pyReplace model_name "-cloud" "") (cloudMessages p) = Except.ok resp ∧
      cloudExtract resp = Except.ok content ∧
      (generate_text env st prompt model_name).1 = content)
  ∨ (∃ p r body out, prompt = some p ∧
      env.post LOCAL_OLLAMA_ENDPOINT (localData p model_name) = Except.ok r ∧
      errStatus r.status = false ∧ r.jsonBody = Except.ok body ∧
      normalizeLocal body = Except.ok out ∧
      (generate_text env st prompt model_name).1 = out) := by
  cases prompt with
  | none => left; rfl
  | some p =>
    by_cases hp : p = ""
    · left; simp [generate_text, hp]
    · cases hc : pyContains model_name "cloud" with
      | true =>
        cases hcl : st.ollama_cloud_client with
        | none => right; left; simp [generate_text, hp, hc, hcl]
        | some u =>
          cases hcc : env.cloudChat (pyReplace model_name "-cloud" "") (cloudMessages p) with
          | error e =>
            right; right; left
            exact ⟨e, by simp [generate_text, hp, hc, hcl, hcc, errorResult]⟩
          | ok resp =>
            cases hex : cloudExtract resp with
            | error e =>
              right; right; left
              exact ⟨e, by simp [generate_text, hp, hc, hcl, hcc, hex, errorResult]⟩
            | ok content =>
              right; right; right; left
              exact ⟨p, resp, content, rfl, hcc, hex,
                by simp [generate_text, hp, hc, hcl, hcc, hex]⟩
      | false =>
        cases hpost : env.post LOCAL_OLLAMA_ENDPOINT (localData p model_name) with
        | error e =>
          right; right; left
          exact ⟨e, by simp [generate_text, hp, hc, hpost, errorResult]⟩
        | ok r =>
          cases hes : errStatus r.status with
          | true =>
            right; right; left
            exact ⟨httpErrorDesc r.status LOCAL_OLLAMA_ENDPOINT,
              by simp [generate_text, hp, hc, hpost, hes, errorResult]⟩
          | false =>
            cases hb : r.jsonBody with
            | error e =>
              right; right; left
              exact ⟨e, by simp [generate_text, hp, hc, hpost, hes, hb, errorResult]⟩
            | ok body =>
              cases hn : normalizeLocal body with
              | error e =>
                right; right; left
                exact ⟨e, by simp [generate_text, hp, hc, hpost, hes, hb, hn, errorResult]⟩
              | ok out =>
                right; right; right; right
                exact ⟨p, r, body, out, rfl, hpost, hes, hb, hn,
                  by simp [generate_text, hp, hc, hpost, hes, hb, hn]⟩

/-- C2: for every model identifier, an absent (`none`) or empty prompt
makes `generate_text` return exactly `"Please enter a prompt."` with an
empty request trace (no backend dispatch) and unchanged state. -/
theorem generate_text_blank_prompt (env : Env) (st : GlobalState) (model_name : String) :
    generate_text env st none model_name = (Json.str "Please enter a prompt.", [], st)
  ∧ generate_text env st (some "") model_name =
      (Json.str "Please enter a prompt.", [], st) :=
  ⟨rfl, by simp [generate_text]⟩

/-- C3: for every non-empty prompt, `generate_text` dispatches to the
local endpoint exactly when the model identifier does not contain the
substring `"cloud"`; when it does contain it, the call either issues a
cloud chat request or (with no client handle) issues nothing and returns
the fixed key-missing error. -/
theorem generate_text_routing (env : Env) (st : GlobalState) (p : String)
    (hp : p ≠ "") (model_name : String) :
    (pyContains model_name "cloud" = true →
      (st.ollama_cloud_client = none ∧
        (generate_text env st (some p) model_name).2.1 = [] ∧
        (generate_text env st (some p) model_name).1 =
          Json.str "Error: OLLAMA_API_KEY not set in .env file.")
      ∨ (generate_text env st (some p) model_name).2.1 =
          [Effect.cloudChat (pyReplace model_name "-cloud" "") (cloudMessages p)])
  ∧ (pyContains model_name "cloud" = false →
      (generate_text env st (some p) model_name).2.1 =
        [Effect.post LOCAL_OLLAMA_ENDPOINT (localData p model_name)]) := by
  constructor
  · intro hc
    cases hcl : st.ollama_cloud_client with
    | none =>
      left
      exact ⟨rfl, by simp [generate_text, hp, hc, hcl],
        by simp [generate_text, hp, hc, hcl]⟩
    | some u =>
      right
      cases hcc : env.cloudChat (pyReplace model_name "-cloud" "") (cloudMessages p) with
      | error e => simp [generate_text, hp, hc, hcl, hcc]
      | ok resp =>
        cases hex : cloudExtract resp with
        | error e => simp [generate_text, hp, hc, hcl, hcc, hex]
        | ok content => simp [generate_text, hp, hc, hcl, hcc, hex]
  · intro hc
    cases hpost : env.post LOCAL_OLLAMA_ENDPOINT (localData p model_name) with
    | error e => simp [generate_text, hp, hc, hpost]
    | ok r =>
      cases hes : errStatus r.status with
      | true => simp [generate_text, hp, hc, hpost, hes]
      | false =>
        cases hb : r.jsonBody with
        | error e => simp [generate_text, hp, hc, hpost, hes, hb]
        | ok body =>
          cases hn : normalizeLocal body with
          | error e => simp [generate_text, hp, hc, hpost, hes, hb, hn]
          | ok out => simp [generate_text, hp, hc, hpost, hes, hb, hn]

/-- Witness for C3's routing theorem at a concrete local-path input. -/
theorem generate_text_routing_witness :
    ("hi" : String) ≠ ""
  ∧ pyContains "gemma:2b" "cloud" = false
  ∧ (generate_text envOk ⟨none⟩ (some "hi") "gemma:2b").2.1 =
      [Effect.post LOCAL_OLLAMA_ENDPOINT (localData "hi" "gemma:2b")] :=
  ⟨by decide, by decide,
    (generate_text_routing envOk ⟨none⟩ "hi" (by decide) "gemma:2b").2 (by decide)⟩

/-- C4 counterexample: with no client handle and a cloud-marked model,
the empty (absent) prompt returns `"Please enter a prompt."`, not the
key-missing error — so the key-missing error is not returned for
*every* prompt. -/
theorem generate_text_cloud_no_key_cex :
    pyContains "gpt-oss:120b-cloud" "cloud" = true
  ∧ (generate_text envOk ⟨none⟩ none "gpt-oss:120b-cloud").1 =
      Json.str "Please enter a prompt."
  ∧ "Please enter a prompt." ≠ "Error: OLLAMA_API_KEY not set in .env file." :=
  ⟨by decide, rfl, by decide⟩

/-- C4 (amended): for every NON-EMPTY prompt and every model identifier
containing `"cloud"`, with no client handle established,
`generate_text` returns exactly the key-missing error string, issues no
request, and leaves the state unchanged. -/
theorem generate_text_cloud_no_key (env : Env) (st : GlobalState) (p : String)
    (hp : p ≠ "") (model_name : String)
    (hc : pyContains model_name "cloud" = true)
    (hk : st.ollama_cloud_client = none) :
    generate_text env st (some p) model_name =
      (Json.str "Error: OLLAMA_API_KEY not set in .env file.", [], st) := by
  simp [generate_text, hp, hc, hk]

/-- Witness for the amended C4 theorem at a concrete input. -/
theorem generate_text_cloud_no_key_witness :
    ("hi" : String) ≠ ""
  ∧ pyContains "gpt-oss:120b-cloud" "cloud" = true
  ∧ generate_text envOk ⟨none⟩ (some "hi") "gpt-oss:120b-cloud" =
      (Json.str "Error: OLLAMA_API_KEY not set in .env file.", [], ⟨none⟩) :=
  ⟨by decide, by decide,
    generate_text_cloud_no_key envOk ⟨none⟩ "hi" (by decide) "gpt-oss:120b-cloud"
      (by decide) rfl⟩

/-- C5 counterexample: for the identifier `"llama-cloud-x"` the source's
`replace` removes the interior occurrence of `-cloud`, so the model name
sent is `"llama-x"`, while stripping only a trailing `-cloud` suffix (the
claim's reading) would leave `"llama-cloud-x"` unchanged. -/
theorem generate_text_cloud_strip_cex :
    (generate_text envOk ⟨some ()⟩ (some "hi") "llama-cloud-x").2.1 =
      [Effect.cloudChat "llama-x" (cloudMessages "hi")]
  ∧ specStripTrailingCloud "llama-cloud-x" = "llama-cloud-x"
  ∧ ("llama-x" : String) ≠ "llama-cloud-x" := by
  refine ⟨?_, by decide, by decide⟩
  have hp : ("hi" : String) ≠ "" := by decide
  have hc : pyContains "llama-cloud-x" "cloud" = true := by decide
  have hrep : pyReplace "llama-cloud-x" "-cloud" "" = "llama-x" := by
    simp [pyReplace, replaceList]
  simp [generate_text, hp, hc, hrep, envOk, cloudExtract, jIndex]

/-- C5 (amended): on the cloud path with a client handle, the model name
sent to the backend is the identifier with EVERY occurrence of
`"-cloud"` removed (Python `replace`); for `"gpt-oss:120b-cloud"` this
yields `"gpt-oss:120b"`, and on a successful chat call the value
returned is the response's `message`/`content` field. -/
theorem generate_text_cloud_model_name (env : Env) (st : GlobalState) (u : Unit)
    (p : String) (hp : p ≠ "") (model_name : String)
    (hc : pyContains model_name "cloud" = true)
    (hk : st.ollama_cloud_client = some u) :
    (generate_text env st (some p) model_name).2.1 =
      [Effect.cloudChat (pyReplace model_name "-cloud" "") (cloudMessages p)]
  ∧ pyReplace "gpt-oss:120b-cloud" "-cloud" "" = "gpt-oss:120b"
  ∧ (∀ resp content,
      env.cloudChat (pyReplace model_name "-cloud" "") (cloudMessages p) = Except.ok resp →
      cloudExtract resp = Except.ok content →
      (generate_text env st (some p) model_name).1 = content) := by
  refine ⟨?_, by simp [pyReplace, replaceList], ?_⟩
  · cases hcc : env.cloudChat (pyReplace model_name "-cloud" "") (cloudMessages p) with
    | error e => simp [generate_text, hp, hc, hk, hcc]
    | ok resp =>
      cases hex : cloudExtract resp with
      | error e => simp [generate_text, hp, hc, hk, hcc, hex]
      | ok content => simp [generate_text, hp, hc, hk, hcc, hex]
  · intro resp content hcc hex
    simp [generate_text, hp, hc, hk, hcc, hex]

/-- Witness for the amended C5 theorem: the dropdown's cloud identifier
is sent as `"gpt-oss:120b"`. -/
theorem generate_text_cloud_model_name_witness :
    (generate_text envOk ⟨some ()⟩ (some "hi") "gpt-oss:120b-cloud").2.1 =
      [Effect.cloudChat "gpt-oss:120b" (cloudMessages "hi")] := by
  have h := generate_text_cloud_model_name envOk ⟨some ()⟩ () "hi" (by decide)
    "gpt-oss:120b-cloud" (by decide) rfl
  rw [h.1, h.2.1]

/-- C6: on the local path, a passing-status backend response whose body
parses to a JSON object is normalized in order: the `response` field if
present, else the `text` field if present, else the textual rendering of
the whole body — normalization itself never produces a fault. -/
theorem generate_text_local_normalization (env : Env) (st : GlobalState)
    (p : String) (hp : p ≠ "") (model_name : String)
    (hc : pyContains model_name "cloud" = false)
    (r : HttpResponse) (fs : List (String × Json))
    (hpost : env.post LOCAL_OLLAMA_ENDPOINT (localData p model_name) = Except.ok r)
    (h2xx : 200 ≤ r.status ∧ r.status < 300)
    (hbody : r.jsonBody = Except.ok (Json.obj fs)) :
    (generate_text env st (some p) model_name).1 =
      (match List.lookup "response" fs with
       | some v => v
       | none =>
         match List.lookup "text" fs with
         | some v => v
         | none => Json.str (pyStr (Json.obj fs))) := by
  have hes : errStatus r.status = false := by
    simp only [errStatus, Bool.and_eq_false_iff, decide_eq_false_iff_not, not_le, not_lt]
    omega
  simp [generate_text, hp, hc, hpost, hes, hbody, normalizeLocal_obj]

/-- Witness for C6's normalization theorem: a 200 response carrying
`response: "hello"` yields `"hello"`. -/
theorem generate_text_local_normalization_witness :
    ("hi" : String) ≠ ""
  ∧ pyContains "gemma:2b" "cloud" = false
  ∧ (generate_text envOk ⟨none⟩ (some "hi") "gemma:2b").1 = Json.str "hello" := by
  refine ⟨by decide, by decide, ?_⟩
  have h := generate_text_local_normalization envOk ⟨none⟩ "hi" (by decide) "gemma:2b"
    (by decide) ⟨200, Except.ok (Json.obj [("response", Json.str "hello")])⟩
    [("response", Json.str "hello")] rfl (by decide) rfl
  simpa using h

/-- C7 counterexample: an HTTP 300 response — non-2xx — passes
`raise_for_status` untouched, so its JSON body is normalized and
`generate_text` returns `"hi"`, which does not start with
`"An error occurred: "`; the failure treatment covers only 4xx/5xx. -/
theorem generate_text_non2xx_cex :
    (generate_text env300 ⟨none⟩ (some "hi") "gemma:2b").1 = Json.str "hi"
  ∧ ¬ (200 ≤ (300 : Nat) ∧ (300 : Nat) < 300)
  ∧ List.isPrefixOf "An error occurred: ".toList "hi".toList = false := by
  refine ⟨?_, by omega, by decide⟩
  have hp : ("hi" : String) ≠ "" := by decide
  have hc : pyContains "gemma:2b" "cloud" = false := by decide
  have hes : errStatus 300 = false := by decide
  simp [generate_text, hp, hc, hes, env300, normalizeLocal, pyIn, jIndex]

/-- C7 (amended): on the local path, every backend response with a 4xx
or 5xx HTTP status (for example HTTP 500) is treated as a failure, and
`generate_text` returns a string starting with `"An error occurred: "`. -/
theorem generate_text_local_http_error (env : Env) (st : GlobalState)
    (p : String) (hp : p ≠ "") (model_name : String)
    (hc : pyContains model_name "cloud" = false)
    (r : HttpResponse)
    (hpost : env.post LOCAL_OLLAMA_ENDPOINT (localData p model_name) = Except.ok r)
    (hstatus : 400 ≤ r.status ∧ r.status < 600) :
    (generate_text env st (some p) model_name).1 =
      Json.str ("An error occurred: " ++ httpErrorDesc r.status LOCAL_OLLAMA_ENDPOINT)
  ∧ List.isPrefixOf "An error occurred: ".toList
      ("An error occurred: " ++ httpErrorDesc r.status LOCAL_OLLAMA_ENDPOINT).toList
      = true := by
  have hes : errStatus r.status = true := by
    simp only [errStatus, Bool.and_eq_true, decide_eq_true_eq]
    omega
  constructor
  · simp [generate_text, hp, hc, hpost, hes, errorResult]
  · rw [toList_append_chars]
    exact isPrefixOf_append_chars _ _

/-- Witness for the amended C7 theorem: an HTTP 500 response produces an
`"An error occurred: "` string. -/
theorem generate_text_local_http_error_witness :
    (generate_text env500 ⟨none⟩ (some "hi") "gemma:2b").1 =
      Json.str ("An error occurred: " ++ httpErrorDesc 500 LOCAL_OLLAMA_ENDPOINT)
  ∧ List.isPrefixOf "An error occurred: ".toList
      ("An error occurred: " ++ httpErrorDesc 500 LOCAL_OLLAMA_ENDPOINT).toList
      = true :=
  generate_text_local_http_error env500 ⟨none⟩ "hi" (by decide) "gemma:2b" (by decide)
    ⟨500, Except.error "no body"⟩ rfl (by decide)

/-- C8: on the local path, `generate_text` issues exactly one POST, to
the fixed endpoint `http://localhost:11434/api/generate`, whose JSON
body carries the unmodified model identifier, the prompt, and
`stream: false`. -/
theorem generate_text_local_request (env : Env) (st : GlobalState)
    (p : String) (hp : p ≠ "") (model_name : String)
    (hc : pyContains model_name "cloud" = false) :
    (generate_text env st (some p) model_name).2.1 =
      [Effect.post LOCAL_OLLAMA_ENDPOINT (localData p model_name)]
  ∧ LOCAL_OLLAMA_ENDPOINT = "http://localhost:11434/api/generate"
  ∧ localData p model_name =
      Json.obj [("model", Json.str model_name), ("prompt", Json.str p),
                ("stream", Json.bool false)] := by
  refine ⟨?_, rfl, rfl⟩
  cases hpost : env.post LOCAL_OLLAMA_ENDPOINT (localData p model_name) with
  | error e => simp [generate_text, hp, hc, hpost]
  | ok r =>
    cases hes : errStatus r.status with
    | true => simp [generate_text, hp, hc, hpost, hes]
    | false =>
      cases hb : r.jsonBody with
      | error e => simp [generate_text, hp, hc, hpost, hes, hb]
      | ok body =>
        cases hn : normalizeLocal body with
        | error e => simp [generate_text, hp, hc, hpost, hes, hb, hn]
        | ok out => simp [generate_text, hp, hc, hpost, hes, hb, hn]

/-- Witness for C8's request-shape theorem at a concrete input. -/
theorem generate_text_local_request_witness :
    ("hi" : String) ≠ ""
  ∧ pyContains "gemma:2b" "cloud" = false
  ∧ (generate_text envOk ⟨none⟩ (some "hi") "gemma:2b").2.1 =
      [Effect.post LOCAL_OLLAMA_ENDPOINT (localData "hi" "gemma:2b")]
  ∧ LOCAL_OLLAMA_ENDPOINT = "http://localhost:11434/api/generate"
  ∧ localData "hi" "gemma:2b" =
      Json.obj [("model", Json.str "gemma:2b"), ("prompt", Json.str "hi"),
                ("stream", Json.bool false)] :=
  ⟨by decide, by decide,
    (generate_text_local_request envOk ⟨none⟩ "hi" (by decide) "gemma:2b" (by decide)).1,
    (generate_text_local_request envOk ⟨none⟩ "hi" (by decide) "gemma:2b" (by decide)).2⟩

/-- C9: `generate_text` leaves the module state (the process-wide cloud
client handle) unchanged, and a second call with identical arguments
against the same deterministic backends produces the identical result. -/
theorem generate_text_stateless (env : Env) (st : GlobalState)
    (prompt : Option String) (model_name : String) :
    (generate_text env st prompt model_name).2.2 = st
  ∧ generate_text env ((generate_text env st prompt model_name).2.2) prompt model_name
      = generate_text env st prompt model_name := by
  have hst : (generate_text env st prompt model_name).2.2 = st := by
    cases prompt with
    | none => rfl
    | some p =>
      simp only [generate_text]
      repeat' split
      all_goals rfl
  exact ⟨hst, by rw [hst]⟩

/-- C10: an identifier containing `"cloud"` but no occurrence of
`"-cloud"` (such as `"cloudmodel"`) takes the cloud path, and the model
name sent to the cloud backend is the identifier unchanged: the
`replace` is a no-op while the routing test still matches. -/
theorem generate_text_cloud_marker_no_suffix (env : Env) (st : GlobalState)
    (u : Unit) (p : String) (hp : p ≠ "") (model_name : String)
    (hc : pyContains model_name "cloud" = true)
    (hnc : pyContains model_name "-cloud" = false)
    (hk : st.ollama_cloud_client = some u) :
    (generate_text env st (some p) model_name).2.1 =
      [Effect.cloudChat model_name (cloudMessages p)] := by
  have hrep : pyReplace model_name "-cloud" "" = model_name :=
    pyReplace_eq_self_of_not_contains _ _ _ hnc
  cases hcc : env.cloudChat model_name (cloudMessages p) with
  | error e => simp [generate_text, hp, hc, hk, hrep, hcc]
  | ok resp =>
    cases hex : cloudExtract resp with
    | error e => simp [generate_text, hp, hc, hk, hrep, hcc, hex]
    | ok content => simp [generate_text, hp, hc, hk, hrep, hcc, hex]

/-- Witness for C10 at the identifier `"cloudmodel"`. -/
theorem generate_text_cloud_marker_no_suffix_witness :
    ("hi" : String) ≠ ""
  ∧ pyContains "cloudmodel" "cloud" = true
  ∧ pyContains "cloudmodel" "-cloud" = false
  ∧ (generate_text envOk ⟨some ()⟩ (some "hi") "cloudmodel").2.1 =
      [Effect.cloudChat "cloudmodel" (cloudMessages "hi")] :=
  ⟨by decide, by decide, by decide,
    generate_text_cloud_marker_no_suffix envOk ⟨some ()⟩ () "hi" (by decide)
      "cloudmodel" (by decide) (by decide) rfl⟩

end Relay
